import Mathlib

/-!
# Verification of the CODITECT cross-platform installer

Shallow embedding of `src/installer/install.py`, `src/installer/launch.py`
and the worker/message layer of `src/installer/install_gui.py`.

The external world an installation run interacts with (existence of the
virtual-environment directory, existence of `requirements.txt`, the
interpreter version, the operator's answer to the recreate prompt, and
the success or failure of each external command) is captured in an `Env`
record.  Every operation returns its result together with an explicit
trace of the effects it performed, in the order the Python code performs
them, so claims about *absence* of side effects are statable.
-/

namespace Coditect

/-- The interpreter version triple, as in Python's `sys.version_info`
(`major`, `minor`, `micro`). -/
structure PyVersion where
  major : Nat
  minor : Nat
  micro : Nat
deriving DecidableEq, Repr

/-- `sys.version_info < (3, 8)` in `check_python_version`
(install.py line 108): Python tuple comparison of the 5-tuple against the
2-tuple `(3, 8)` is lexicographic on the first two components (when both
agree the longer tuple is the greater one, so a version `(3, 8, ...)` is
not below `(3, 8)`). -/
def versionBelowMin (v : PyVersion) : Bool :=
  v.major < 3 || (v.major == 3 && v.minor < 8)

/-- `f"{sys.version_info.major}.{sys.version_info.minor}.{sys.version_info.micro}"`. -/
def versionString (v : PyVersion) : String :=
  toString v.major ++ "." ++ toString v.minor ++ "." ++ toString v.micro

/-- One observable effect of an installation run, in the order the Python
code performs them.  `rmtree` is `shutil.rmtree(self.venv_path)`; the four
`...Cmd` effects are the four `subprocess.run` invocations; `promptUser`
is the `input(...)` call of `create_venv`; the `print...` effects are the
`print_status` / `print_warning` / `print_error` console lines. -/
inductive Effect where
  | rmtree
  | createVenvCmd
  | pipUpgradeCmd
  | pipInstallReqCmd
  | importProbeCmd
  | promptUser
  | launchGuiApp
  | printOk (s : String)
  | printWarn (s : String)
  | printErr (s : String)
deriving DecidableEq, Repr

/-- Whether an effect changes the filesystem or spawns a process:
deleting the environment directory, invoking any of the four external
commands, or starting the GUI application.  Console output and reading
the operator's answer are not side effects in this sense. -/
def Effect.isSideEffect : Effect → Bool
  | Effect.rmtree => true
  | Effect.createVenvCmd => true
  | Effect.pipUpgradeCmd => true
  | Effect.pipInstallReqCmd => true
  | Effect.importProbeCmd => true
  | Effect.launchGuiApp => true
  | _ => false

/-- Whether an effect is one of the external installation commands
(`subprocess.run` invocations). -/
def Effect.isCommand : Effect → Bool
  | Effect.createVenvCmd => true
  | Effect.pipUpgradeCmd => true
  | Effect.pipInstallReqCmd => true
  | Effect.importProbeCmd => true
  | _ => false

/-- The external world of one installation run: what is on disk when the
run starts, the interpreter version, the operator's answer to the
recreate prompt, and the exit status each external command would have. -/
structure Env where
  /-- `self.venv_path.exists()` at the start of the run. -/
  venvExists : Bool
  /-- `(self.project_root / 'requirements.txt').exists()`. -/
  requirementsExists : Bool
  /-- `sys.version_info` of the driving interpreter. -/
  version : PyVersion
  /-- What `input("Do you want to recreate it? (y/N): ")` returns. -/
  recreateResponse : String
  /-- Whether `python -m venv` exits with status 0. -/
  venvCreateOk : Bool
  /-- Whether `pip install --upgrade pip` exits with status 0. -/
  pipUpgradeOk : Bool
  /-- Whether `pip install -r requirements.txt` exits with status 0. -/
  reqInstallOk : Bool
  /-- Whether `python -c "import git; ..."` exits with status 0. -/
  gitProbeOk : Bool
  /-- The stdout of the GitPython import probe. -/
  gitVersion : String
deriving DecidableEq, Repr

/-- `check_python_version` (install.py lines 104-114): returns the
`(success, message)` pair together with its console trace. -/
def check_python_version (env : Env) : (Bool × String) × List Effect :=
  if versionBelowMin env.version then
    ((false, "Python 3.8+ required (found " ++ versionString env.version ++ ")"), [])
  else
    ((true, versionString env.version),
     [Effect.printOk ("Python " ++ versionString env.version ++ " detected")])

/-- Python's `str.lower()` on the ASCII fragment the prompt deals in:
lowercase every character. -/
def pyLower (s : String) : String :=
  ⟨s.data.map Char.toLower⟩

/-- Python's `str.strip()` with no argument: remove leading and trailing
whitespace. -/
def pyStrip (s : String) : String :=
  ⟨((s.data.dropWhile Char.isWhitespace).reverse.dropWhile Char.isWhitespace).reverse⟩

/-- The `try`-block of `create_venv` (install.py lines 134-142): invoke
`python -m venv`; on success the directory exists afterwards, on a
`CalledProcessError` the method reports failure.  `pre` is the trace
accumulated before the attempt. -/
def attemptCreate (env : Env) (pre : List Effect) : (Bool × List Effect) × Env :=
  if env.venvCreateOk then
    ((true, pre ++ [Effect.createVenvCmd,
        Effect.printOk "Virtual environment created"]),
     { env with venvExists := true })
  else
    ((false, pre ++ [Effect.createVenvCmd,
        Effect.printErr "Failed to create virtual environment"]),
     { env with venvExists := false })

/-- `create_venv` (install.py lines 116-142).  If the directory already
exists: with `force_recreate` it is removed and recreated; otherwise the
operator is prompted, and only the stripped, lowercased answer `"y"`
triggers removal and recreation — any other answer reuses the directory
and the method returns `True` without touching it. -/
def create_venv (force_recreate : Bool) (env : Env) : (Bool × List Effect) × Env :=
  if env.venvExists then
    if force_recreate then
      attemptCreate { env with venvExists := false }
        [Effect.printWarn "Removing existing venv", Effect.rmtree]
    else
      if pyLower (pyStrip env.recreateResponse) = "y" then
        attemptCreate { env with venvExists := false }
          [Effect.printWarn "Virtual environment already exists",
           Effect.promptUser, Effect.rmtree]
      else
        ((true, [Effect.printWarn "Virtual environment already exists",
                 Effect.promptUser,
                 Effect.printOk "Using existing virtual environment"]), env)
  else
    attemptCreate env []

/-- `install_dependencies` (install.py lines 144-196): fail if the
environment directory is absent; upgrade pip (a failure aborts the
phase); if `requirements.txt` exists install from it (a failure aborts
the phase) and then run the GitPython import probe, whose failure is only
a warning; if `requirements.txt` is absent return success immediately. -/
def install_dependencies (env : Env) : Bool × List Effect :=
  if !env.venvExists then
    (false, [Effect.printErr "Virtual environment not found. Run without --deps-only first."])
  else if !env.pipUpgradeOk then
    (false, [Effect.pipUpgradeCmd, Effect.printErr "Dependency installation failed"])
  else
    let preEff := [Effect.pipUpgradeCmd, Effect.printOk "pip upgraded"]
    if env.requirementsExists then
      if !env.reqInstallOk then
        (false, preEff ++ [Effect.pipInstallReqCmd,
            Effect.printErr "Dependency installation failed"])
      else
        let instEff := preEff ++ [Effect.pipInstallReqCmd,
            Effect.printOk "Dependencies installed from requirements.txt"]
        if env.gitProbeOk then
          (true, instEff ++ [Effect.importProbeCmd,
              Effect.printOk ("GitPython " ++ env.gitVersion
                ++ " installed (80x faster git operations)")])
        else
          (true, instEff ++ [Effect.importProbeCmd,
              Effect.printWarn "GitPython not installed - git operations will use subprocess fallback"])
    else
      (true, preEff ++
        [Effect.printWarn "requirements.txt not found, skipping dependency installation"])

/-- `CrossPlatformInstaller.run` (install.py lines 225-247): version
check first, then (unless `deps_only`) environment creation, then
(unless `venv_only`) dependency installation; returns the process exit
code and the full effect trace.  Header and next-steps banners are plain
console text and are not traced. -/
def run (venv_only deps_only : Bool) (env : Env) : Nat × List Effect :=
  let vres := check_python_version env
  if vres.1.1 = false then
    (1, vres.2 ++ [Effect.printErr vres.1.2])
  else
    let afterVenv : (Bool × List Effect) × Env :=
      if deps_only then ((true, []), env) else create_venv false env
    if afterVenv.1.1 = false then
      (1, vres.2 ++ afterVenv.1.2)
    else
      let deps : Bool × List Effect :=
        if venv_only then (true, []) else install_dependencies afterVenv.2
      if deps.1 = false then
        (1, vres.2 ++ afterVenv.1.2 ++ deps.2)
      else
        (0, vres.2 ++ afterVenv.1.2 ++ deps.2)

/-- `main` of install.py (lines 250-294): after argument parsing, the
combination `--venv-only --deps-only` is rejected with exit code 1 before
the installer object is even constructed; otherwise `run` drives the
installation. -/
def installMain (venv_only deps_only : Bool) (env : Env) : Nat × List Effect :=
  if venv_only && deps_only then
    (1, [])
  else
    run venv_only deps_only env

/-- The parsed flags of launch.py (`--gui`, `--cli`, `--venv-only`,
`--deps-only`). -/
structure LaunchArgs where
  gui : Bool
  cli : Bool
  venv_only : Bool
  deps_only : Bool
deriving DecidableEq, Repr

/-- `main` of launch.py (lines 86-180): `--venv-only`/`--deps-only`
without `--cli` is rejected, then the pair together is rejected, both
with exit code 1 and before the banner or any dispatch; `--gui` fails
with exit 1 when the toolkit is unavailable; the CLI path runs
`CrossPlatformInstaller.run` and exits with its code; auto mode probes
the toolkit and dispatches accordingly. -/
def launchMain (args : LaunchArgs) (guiAvailable : Bool) (env : Env) :
    Nat × List Effect :=
  if (args.venv_only || args.deps_only) && !args.cli then
    (1, [])
  else if args.venv_only && args.deps_only then
    (1, [])
  else if args.gui then
    if !guiAvailable then (1, [])
    else (0, [Effect.launchGuiApp])
  else if args.cli then
    run args.venv_only args.deps_only env
  else if guiAvailable then
    (0, [Effect.launchGuiApp])
  else
    run false false env

/-- A Progress Message posted on the worker-to-UI queue of
install_gui.py: one of the four tags handled by `_process_messages`. -/
inductive Msg where
  | log (s : String)
  | progress (s : String)
  | success (s : String)
  | error (s : String)
deriving DecidableEq, Repr

/-- Whether a message is terminal (`success` or `error`): exactly these
re-enable the action button in the handlers. -/
def Msg.isTerminal : Msg → Bool
  | Msg.success _ => true
  | Msg.error _ => true
  | _ => false

/-- Whether a message is a `success` message. -/
def Msg.isSuccess : Msg → Bool
  | Msg.success _ => true
  | _ => false

/-- Whether a message is an `error` message. -/
def Msg.isError : Msg → Bool
  | Msg.error _ => true
  | _ => false

/-- `InstallerGUI._run_installation` (install_gui.py lines 249-294): the
sequence of Progress Messages the worker thread enqueues, in emission
order, as a function of the environment.  The worker re-checks the
interpreter version itself, then calls `create_venv` and
`install_dependencies` of the CLI installer, and each failure turns into
a single terminal `error` message while full success ends in the single
terminal `success` message. -/
def runInstallation (env : Env) : List Msg :=
  [Msg.log "Starting installation...", Msg.log "",
   Msg.progress "Checking Python version...", Msg.log "Checking Python version..."] ++
  if versionBelowMin env.version then
    [Msg.error ("Python 3.8+ required (found " ++ versionString env.version ++ ")")]
  else
    [Msg.log "✓ Python version OK", Msg.log "",
     Msg.progress "Creating virtual environment...",
     Msg.log "Creating virtual environment..."] ++
    (let cv := create_venv false env
     if cv.1.1 = false then
       [Msg.error "Failed to create virtual environment"]
     else
       [Msg.log "✓ Virtual environment created", Msg.log "",
        Msg.progress "Installing dependencies...", Msg.log "Installing dependencies..."] ++
       if (install_dependencies cv.2).1 = false then
         [Msg.error "Failed to install dependencies"]
       else
         [Msg.log "✓ Dependencies installed", Msg.log "",
          Msg.success "Installation complete!"])

/-- The part of the UI state that the message handlers mutate: the
messages rendered so far (in order) and whether the action button is
enabled.  `_start_installation` disables the button before the worker
starts, so the initial state has it disabled. -/
structure UIState where
  rendered : List Msg
  buttonEnabled : Bool
deriving DecidableEq, Repr

/-- The dispatch of `_process_messages` (install_gui.py lines 296-315)
for one dequeued message: every message is rendered (log messages go to
the log view via `_log_message`, progress messages to the progress label
via `_update_progress`), and only the terminal handlers
`_installation_success` / `_installation_error` re-enable the action
button. -/
def handleMsg (st : UIState) (m : Msg) : UIState :=
  match m with
  | Msg.log _ => { st with rendered := st.rendered ++ [m] }
  | Msg.progress _ => { st with rendered := st.rendered ++ [m] }
  | Msg.success _ => { rendered := st.rendered ++ [m], buttonEnabled := true }
  | Msg.error _ => { rendered := st.rendered ++ [m], buttonEnabled := true }

/-- Draining a queue of messages in FIFO order, as the polling loop
does. -/
def processMsgs (st : UIState) (ms : List Msg) : UIState :=
  ms.foldl handleMsg st

/-- The UI state right after `_start_installation`: nothing rendered yet
(the log was cleared) and the action button disabled. -/
def initialUI : UIState :=
  { rendered := [], buttonEnabled := false }

/-- Spec-modelled pattern, following the words of the claim only (for
comparison with the emission order of `runInstallation`): the message
sequence is a log message first, then a progress-text update, then zero
or more intermediate log messages, then exactly one terminal success
message. -/
def claimedMsgOrder (ms : List Msg) : Bool :=
  match ms with
  | Msg.log _ :: Msg.progress _ :: rest =>
    (match rest.getLast? with
     | some (Msg.success _) => true
     | _ => false)
    && rest.dropLast.all (fun m => match m with | Msg.log _ => true | _ => false)
  | _ => false

/-- `get_python_executable` (install.py lines 60-64): the interpreter
executable name for the platform; any OS other than Windows gets the
Unix-style name. -/
def get_python_executable (osType : String) : String :=
  if osType = "Windows" then "python" else "python3"

/-- Rendering of a path given by its components, as the f-strings of
install.py render `Path` values. -/
def pathStr (p : List String) : String :=
  String.intercalate "/" p

/-- The path of the activation script referenced by
`get_venv_activation_command` (install.py lines 66-70):
`venv/Scripts/activate.bat` on Windows, `venv/bin/activate` elsewhere. -/
def activationScriptPath (osType : String) (venvPath : List String) : List String :=
  if osType = "Windows" then venvPath ++ ["Scripts", "activate.bat"]
  else venvPath ++ ["bin", "activate"]

/-- `get_venv_activation_command` (install.py lines 66-70): the literal
script path on Windows, `source <path>` elsewhere. -/
def get_venv_activation_command (osType : String) (venvPath : List String) : String :=
  if osType = "Windows" then pathStr (activationScriptPath osType venvPath)
  else "source " ++ pathStr (activationScriptPath osType venvPath)

/-- `get_venv_python` (install.py lines 72-76): the in-environment
interpreter path. -/
def get_venv_python (osType : String) (venvPath : List String) : List String :=
  if osType = "Windows" then venvPath ++ ["Scripts", "python.exe"]
  else venvPath ++ ["bin", "python"]

/-- `get_venv_pip` (install.py lines 78-82): the in-environment
package-installer path. -/
def get_venv_pip (osType : String) (venvPath : List String) : List String :=
  if osType = "Windows" then venvPath ++ ["Scripts", "pip.exe"]
  else venvPath ++ ["bin", "pip"]

/-- A concrete environment for witnesses: a fresh checkout (no venv yet),
a manifest present, interpreter 3.11.2, every external command
succeeding. -/
def sampleEnv : Env :=
  { venvExists := false, requirementsExists := true, version := ⟨3, 11, 2⟩,
    recreateResponse := "", venvCreateOk := true, pipUpgradeOk := true,
    reqInstallOk := true, gitProbeOk := true, gitVersion := "3.1.40" }

/-- A concrete environment whose manifest file is absent. -/
def noReqEnv : Env :=
  { sampleEnv with requirementsExists := false, venvExists := true }

/-- A concrete environment whose venv directory already exists and whose
operator declines recreation with the empty answer. -/
def existingVenvEnv : Env :=
  { sampleEnv with venvExists := true }

/-- A concrete environment whose venv directory exists and whose operator
answers `"yes"` at the recreate prompt. -/
def yesEnv : Env :=
  { sampleEnv with venvExists := true, recreateResponse := "yes" }

/-- A concrete environment where the GitPython import probe fails. -/
def probeFailEnv : Env :=
  { sampleEnv with venvExists := true, gitProbeOk := false }

/-- A concrete environment driven by interpreter 3.7.9. -/
def oldPyEnv : Env :=
  { sampleEnv with version := ⟨3, 7, 9⟩ }

/-! ## Helper lemmas -/

/-- The Boolean version test of the source agrees with the arithmetic
reading of "below Python 3.8". -/
theorem versionBelowMin_iff (v : PyVersion) :
    versionBelowMin v = true ↔ (v.major < 3 ∨ (v.major = 3 ∧ v.minor < 8)) := by
  simp [versionBelowMin]

/-- Dropping the last element of a list extended by two elements keeps
the first of the two. -/
theorem dropLast_append_pair (l : List String) (a b : String) :
    (l ++ [a, b]).dropLast = l ++ [a] := by
  rw [show l ++ [a, b] = (l ++ [a]) ++ [b] by simp, List.dropLast_concat]

/-- The polling loop renders every processed message, in order. -/
theorem processMsgs_rendered (st : UIState) (ms : List Msg) :
    (processMsgs st ms).rendered = st.rendered ++ ms := by
  induction ms generalizing st with
  | nil => simp [processMsgs]
  | cons m ms ih =>
    rw [processMsgs, List.foldl_cons]
    rw [show List.foldl handleMsg (handleMsg st m) ms = processMsgs (handleMsg st m) ms from rfl]
    rw [ih]
    cases m <;> simp [handleMsg]

/-- The action button is enabled after draining a batch of messages
exactly when it was already enabled or the batch holds a terminal
message. -/
theorem processMsgs_buttonEnabled (st : UIState) (ms : List Msg) :
    (processMsgs st ms).buttonEnabled = (st.buttonEnabled || ms.any Msg.isTerminal) := by
  induction ms generalizing st with
  | nil => simp [processMsgs]
  | cons m ms ih =>
    rw [processMsgs, List.foldl_cons]
    rw [show List.foldl handleMsg (handleMsg st m) ms = processMsgs (handleMsg st m) ms from rfl]
    rw [ih]
    cases m <;> simp [handleMsg, Msg.isTerminal, Bool.or_assoc]

/-- The version-mismatch error line is never the missing-environment
error line, whatever the interpolated version string is. -/
theorem version_msg_ne (s : String) :
    ("Python 3.8+ required (found " ++ s ++ ")") ≠
      "Virtual environment not found. Run without --deps-only first." := by
  intro h
  have hd := congrArg String.data h
  rw [String.data_append, String.data_append] at hd
  have hP : "Python 3.8+ required (found ".data
      = 'P' :: "ython 3.8+ required (found ".data := rfl
  have hV : "Virtual environment not found. Run without --deps-only first.".data
      = 'V' :: "irtual environment not found. Run without --deps-only first.".data := rfl
  rw [hP, hV] at hd
  simp [List.cons_append] at hd

/-! ## Claims -/

/-- C1: a run in dependencies-only mode (`--deps-only`) with no
environment directory present exits with code 1 and performs no
installation command and no filesystem side effect: dependency
installation is not attempted and the environment is not implicitly
created. -/
theorem c1_deps_only_missing_env_fails (env : Env) (h : env.venvExists = false) :
    (run false true env).1 = 1 ∧
    (run false true env).2.all (fun e => e.isSideEffect = false) = true := by
  cases hv : versionBelowMin env.version <;>
    simp [run, check_python_version, install_dependencies, hv, h, Effect.isSideEffect]

/-- Witness for C1 at a concrete fresh-checkout environment. -/
theorem c1_witness :
    sampleEnv.venvExists = false ∧
    ((run false true sampleEnv).1 = 1 ∧
     (run false true sampleEnv).2.all (fun e => e.isSideEffect = false) = true) :=
  ⟨rfl, c1_deps_only_missing_env_fails sampleEnv rfl⟩

/-- C2: setting both mutually exclusive mode flags, in the CLI front-end
(install.py `main`) or in the Launcher (launch.py `main`), exits with
code 1 and an empty effect trace: no filesystem or process side effect
happens before the rejection, whatever the other flags, the toolkit
availability or the environment. -/
theorem c2_mutually_exclusive_flags_rejected (env : Env) (guiAvailable g c : Bool) :
    installMain true true env = (1, []) ∧
    launchMain ⟨g, c, true, true⟩ guiAvailable env = (1, []) := by
  refine ⟨rfl, ?_⟩
  cases c <;> simp [launchMain]

/-- C3: when the dependency manifest is absent at the project root, the
dependency-installation phase (reaching its manifest check with the
environment present and the pip upgrade succeeding) returns success and
never invokes the manifest-install command. -/
theorem c3_missing_manifest_vacuous_success (env : Env)
    (hreq : env.requirementsExists = false) (hv : env.venvExists = true)
    (hpip : env.pipUpgradeOk = true) :
    (install_dependencies env).1 = true ∧
    Effect.pipInstallReqCmd ∉ (install_dependencies env).2 := by
  simp [install_dependencies, hreq, hv, hpip]

/-- Witness for C3 at a concrete manifest-free environment. -/
theorem c3_witness :
    noReqEnv.requirementsExists = false ∧
    ((install_dependencies noReqEnv).1 = true ∧
     Effect.pipInstallReqCmd ∉ (install_dependencies noReqEnv).2) :=
  ⟨rfl, c3_missing_manifest_vacuous_success noReqEnv rfl rfl rfl⟩

/-- C4: with an interpreter below 3.8 the version check fails, and any
run exits immediately with code 1 carrying only the version-mismatch
error line — in particular no environment-creation command is invoked;
with any interpreter at or above 3.8 the check succeeds. -/
theorem c4_version_gate (env : Env) (vo dp : Bool) :
    (env.version.major < 3 ∨ (env.version.major = 3 ∧ env.version.minor < 8) →
      (check_python_version env).1.1 = false ∧
      run vo dp env =
        (1, [Effect.printErr
              ("Python 3.8+ required (found " ++ versionString env.version ++ ")")])) ∧
    (¬(env.version.major < 3 ∨ (env.version.major = 3 ∧ env.version.minor < 8)) →
      (check_python_version env).1.1 = true) := by
  constructor
  · intro h
    have hb : versionBelowMin env.version = true := (versionBelowMin_iff _).mpr h
    exact ⟨by simp [check_python_version, hb], by simp [run, check_python_version, hb]⟩
  · intro h
    have hb : versionBelowMin env.version = false := by
      cases hx : versionBelowMin env.version
      · rfl
      · exact absurd ((versionBelowMin_iff _).mp hx) h
    simp [check_python_version, hb]

/-- Witness for C4 at interpreter 3.7.9: the check fails and the full run
exits 1 with only the version-mismatch line. -/
theorem c4_witness :
    (oldPyEnv.version.major < 3 ∨ (oldPyEnv.version.major = 3 ∧ oldPyEnv.version.minor < 8)) ∧
    ((check_python_version oldPyEnv).1.1 = false ∧
     run false false oldPyEnv =
       (1, [Effect.printErr
             ("Python 3.8+ required (found " ++ versionString oldPyEnv.version ++ ")")])) :=
  ⟨by decide, (c4_version_gate oldPyEnv false false).1 (by decide)⟩

/-- C5: when the environment directory exists, recreation is not forced
and the operator's stripped, lowercased answer is not `"y"`, the phase
succeeds, performs neither the recursive delete nor the creation
command, and leaves the environment state unchanged. -/
theorem c5_decline_recreation_frame (env : Env) (hv : env.venvExists = true)
    (hr : pyLower (pyStrip env.recreateResponse) ≠ "y") :
    (create_venv false env).1.1 = true ∧
    Effect.rmtree ∉ (create_venv false env).1.2 ∧
    Effect.createVenvCmd ∉ (create_venv false env).1.2 ∧
    (create_venv false env).2 = env := by
  simp [create_venv, hv, hr]

/-- Witness for C5 at a concrete environment whose operator answers with
the empty string. -/
theorem c5_witness :
    existingVenvEnv.venvExists = true ∧
    pyLower (pyStrip existingVenvEnv.recreateResponse) ≠ "y" ∧
    ((create_venv false existingVenvEnv).1.1 = true ∧
     Effect.rmtree ∉ (create_venv false existingVenvEnv).1.2 ∧
     Effect.createVenvCmd ∉ (create_venv false existingVenvEnv).1.2 ∧
     (create_venv false existingVenvEnv).2 = existingVenvEnv) :=
  ⟨rfl, by decide, c5_decline_recreation_frame existingVenvEnv rfl (by decide)⟩

/-- C6: in a dependency-installation run whose installation commands all
succeed, the outcome is success whether or not the optional GitPython
probe import succeeds; the probe runs, and its failure surfaces only as
the warning line. -/
theorem c6_probe_failure_is_warning (env : Env) (hv : env.venvExists = true)
    (hpip : env.pipUpgradeOk = true) (hreq : env.requirementsExists = true)
    (hinst : env.reqInstallOk = true) :
    (install_dependencies env).1 = true ∧
    Effect.importProbeCmd ∈ (install_dependencies env).2 ∧
    (env.gitProbeOk = false →
      Effect.printWarn "GitPython not installed - git operations will use subprocess fallback"
        ∈ (install_dependencies env).2) := by
  cases hg : env.gitProbeOk <;>
    simp [install_dependencies, hv, hpip, hreq, hinst, hg]

/-- Witness for C6 at a concrete environment whose import probe fails. -/
theorem c6_witness :
    probeFailEnv.gitProbeOk = false ∧
    ((install_dependencies probeFailEnv).1 = true ∧
     Effect.importProbeCmd ∈ (install_dependencies probeFailEnv).2 ∧
     (probeFailEnv.gitProbeOk = false →
       Effect.printWarn "GitPython not installed - git operations will use subprocess fallback"
         ∈ (install_dependencies probeFailEnv).2)) :=
  ⟨rfl, c6_probe_failure_is_warning probeFailEnv rfl rfl rfl rfl⟩

/-- C7: for every OS name the Platform Resolver's outputs are total pure
functions (they are Lean functions of the OS name and the venv path
alone); the directory of the activation script equals the directory of
the in-environment interpreter and of the in-environment pip; and every
OS name other than Windows falls through to the Unix-style convention. -/
theorem c7_platform_resolver_consistent (osType : String) (venvPath : List String) :
    (activationScriptPath osType venvPath).dropLast
      = (get_venv_python osType venvPath).dropLast ∧
    (get_venv_python osType venvPath).dropLast
      = (get_venv_pip osType venvPath).dropLast ∧
    (osType ≠ "Windows" →
      get_python_executable osType = "python3" ∧
      get_venv_python osType venvPath = venvPath ++ ["bin", "python"] ∧
      get_venv_pip osType venvPath = venvPath ++ ["bin", "pip"] ∧
      get_venv_activation_command osType venvPath
        = "source " ++ pathStr (venvPath ++ ["bin", "activate"])) := by
  by_cases h : osType = "Windows" <;>
    simp [activationScriptPath, get_venv_python, get_venv_pip, get_python_executable,
          get_venv_activation_command, pathStr, dropLast_append_pair, h]

/-- Witness for C7 at a non-Windows OS name and a concrete venv path. -/
theorem c7_witness :
    ("Linux" : String) ≠ "Windows" ∧
    get_python_executable "Linux" = "python3" ∧
    get_venv_python "Linux" ["proj", "venv"] = ["proj", "venv"] ++ ["bin", "python"] ∧
    (activationScriptPath "Linux" ["proj", "venv"]).dropLast
      = (get_venv_python "Linux" ["proj", "venv"]).dropLast := by
  have h := c7_platform_resolver_consistent "Linux" ["proj", "venv"]
  have hne : ("Linux" : String) ≠ "Windows" := by decide
  exact ⟨hne, (h.2.2 hne).1, (h.2.2 hne).2.1, h.1⟩

/-- C8 counterexample: a concrete fully successful GUI run whose worker
emits a message sequence that does NOT have the claimed shape "one log
message, then one progress-text update, then only log messages, then the
terminal success message" — the second emitted message is a log line and
three progress-text updates occur — even though the run is successful
(its last message is the single terminal success message and no error
message is emitted). -/
theorem c8_counterexample :
    (runInstallation sampleEnv).getLast? = some (Msg.success "Installation complete!") ∧
    (runInstallation sampleEnv).all (fun m => m.isError = false) = true ∧
    claimedMsgOrder (runInstallation sampleEnv) = false := by
  decide

/-- C8 (amended): every successful GUI run emits a log message first and
exactly one terminal success message last, with only log and
progress-text messages (no error) in between — progress-text updates
interleaved among the logs rather than a single one — and the polling
loop renders every emitted message, the action button staying disabled
until the final, terminal message has been processed. -/
theorem c8_gui_message_order (env : Env)
    (hver : versionBelowMin env.version = false)
    (hcv : (create_venv false env).1.1 = true)
    (hdeps : (install_dependencies (create_venv false env).2).1 = true) :
    (runInstallation env).head? = some (Msg.log "Starting installation...") ∧
    (runInstallation env).getLast? = some (Msg.success "Installation complete!") ∧
    (runInstallation env).countP (fun m => Msg.isSuccess m) = 1 ∧
    (runInstallation env).all (fun m => m.isError = false) = true ∧
    (processMsgs initialUI (runInstallation env)).rendered = runInstallation env ∧
    (∀ n : Nat, n < (runInstallation env).length →
       (processMsgs initialUI ((runInstallation env).take n)).buttonEnabled = false) ∧
    (processMsgs initialUI (runInstallation env)).buttonEnabled = true := by
  have hmsgs : runInstallation env =
      [Msg.log "Starting installation...", Msg.log "",
       Msg.progress "Checking Python version...", Msg.log "Checking Python version...",
       Msg.log "✓ Python version OK", Msg.log "",
       Msg.progress "Creating virtual environment...",
       Msg.log "Creating virtual environment...",
       Msg.log "✓ Virtual environment created", Msg.log "",
       Msg.progress "Installing dependencies...", Msg.log "Installing dependencies...",
       Msg.log "✓ Dependencies installed", Msg.log "",
       Msg.success "Installation complete!"] := by
    simp [runInstallation, hver, hcv, hdeps]
  rw [hmsgs]
  refine ⟨by decide, by decide, by decide, by decide, processMsgs_rendered _ _, ?_, by decide⟩
  intro n hn
  simp only [List.length] at hn
  interval_cases n <;> decide

/-- Witness for C8's amended theorem at the concrete fully successful
environment. -/
theorem c8_witness :
    versionBelowMin sampleEnv.version = false ∧
    (create_venv false sampleEnv).1.1 = true ∧
    (install_dependencies (create_venv false sampleEnv).2).1 = true ∧
    (runInstallation sampleEnv).head? = some (Msg.log "Starting installation...") ∧
    (processMsgs initialUI (runInstallation sampleEnv)).buttonEnabled = true :=
  ⟨by decide, by decide, by decide,
   (c8_gui_message_order sampleEnv (by decide) (by decide) (by decide)).1,
   (c8_gui_message_order sampleEnv (by decide) (by decide) (by decide)).2.2.2.2.2.2⟩

/-- C9: the version check runs before the environment-existence check:
a dependencies-only run with an old interpreter and no environment
directory exits 1 reporting the version-mismatch line, and the
missing-environment line is not in its trace. -/
theorem c9_version_check_first (env : Env)
    (hver : versionBelowMin env.version = true) (_hv : env.venvExists = false) :
    (run false true env).1 = 1 ∧
    Effect.printErr ("Python 3.8+ required (found " ++ versionString env.version ++ ")")
      ∈ (run false true env).2 ∧
    Effect.printErr "Virtual environment not found. Run without --deps-only first."
      ∉ (run false true env).2 := by
  have htr : run false true env =
      (1, [Effect.printErr
            ("Python 3.8+ required (found " ++ versionString env.version ++ ")")]) := by
    simp [run, check_python_version, hver]
  rw [htr]
  refine ⟨rfl, by simp, ?_⟩
  simp only [List.mem_singleton]
  intro hcontra
  exact version_msg_ne (versionString env.version) (Effect.printErr.inj hcontra).symm

/-- Witness for C9 at interpreter 3.7.9 with no environment directory. -/
theorem c9_witness :
    versionBelowMin oldPyEnv.version = true ∧
    oldPyEnv.venvExists = false ∧
    ((run false true oldPyEnv).1 = 1 ∧
     Effect.printErr ("Python 3.8+ required (found " ++ versionString oldPyEnv.version ++ ")")
       ∈ (run false true oldPyEnv).2 ∧
     Effect.printErr "Virtual environment not found. Run without --deps-only first."
       ∉ (run false true oldPyEnv).2) :=
  ⟨by decide, rfl, c9_version_check_first oldPyEnv (by decide) rfl⟩

/-- C10: with the environment directory present and recreation not
forced, the recursive delete and the creation command are both performed
exactly when the operator's stripped, lowercased answer is the single
character `"y"`; every other answer (such as `"yes"` or the empty
string) makes the phase succeed with the environment untouched. -/
theorem c10_recreate_iff_y (env : Env) (hv : env.venvExists = true) :
    ((Effect.rmtree ∈ (create_venv false env).1.2 ∧
      Effect.createVenvCmd ∈ (create_venv false env).1.2) ↔
      pyLower (pyStrip env.recreateResponse) = "y") ∧
    (pyLower (pyStrip env.recreateResponse) ≠ "y" →
      (create_venv false env).1.1 = true ∧ (create_venv false env).2 = env) := by
  by_cases hr : pyLower (pyStrip env.recreateResponse) = "y" <;>
    cases hc : env.venvCreateOk <;>
      simp [create_venv, attemptCreate, hv, hr, hc]

/-- Witness for C10 at a concrete environment whose operator answers
`"yes"`: the directory is reused, not recreated. -/
theorem c10_witness :
    yesEnv.venvExists = true ∧
    pyLower (pyStrip yesEnv.recreateResponse) ≠ "y" ∧
    ((create_venv false yesEnv).1.1 = true ∧ (create_venv false yesEnv).2 = yesEnv) := by
  have h := c10_recreate_iff_y yesEnv rfl
  have hne : pyLower (pyStrip yesEnv.recreateResponse) ≠ "y" := by decide
  exact ⟨rfl, hne, h.2 hne⟩

end Coditect
